import Mathlib

/-!
Verification development for the Data_dashboard repository.

The definitions below are a shallow embedding of the query pipeline
(`app/services/query_engine.py`), the embeddings store glue
(`app/services/embeddings.py`), the table extraction data model
(`app/services/pptx_processor.py`) and the ingestion flow of the upload
component (`app/components/upload.py`).

Python floats are modelled as exact rationals (`ℚ`), Python strings as
Lean `String`, `None`-able values as `Option`, raised exceptions as
`Except`, and the hosted generation client as an oracle function from a
request record to `Except GenError String`.  Functions that may invoke
the generation client additionally return the number of generation calls
they made, so that "does not attempt generation" is a provable statement.
-/

namespace DataDashboard

/-- Apostrophe character, spliced into the string literals that need it. -/
def apos : String := String.mk [Char.ofNat 39]

/-- Metadata dictionary attached to a retrieval result, as read by
`QueryEngine` via `metadata.get(...)` with defaults.  Absent keys are
`none`. -/
structure SlideMeta where
  slide_number : Option Int
  filename : Option String
  title : Option String
  has_chart : Option Bool
  has_image : Option Bool
  has_table : Option Bool
  deriving DecidableEq, Repr

/-- The `metadata.get('slide_number', '?')` access rendered into a string
(f-string interpolation turns an int into its decimal form). -/
def metaSlideNumStr (m : SlideMeta) : String :=
  match m.slide_number with
  | some n => toString n
  | none => "?"

/-- The `metadata.get('filename', 'Unknown')` access. -/
def metaFilenameStr (m : SlideMeta) : String :=
  m.filename.getD "Unknown"

/-- The `metadata.get('title', 'Untitled')` access. -/
def metaTitleStr (m : SlideMeta) : String :=
  m.title.getD "Untitled"

/-- One formatted search hit as produced by `EmbeddingsService.search`:
id, document content, metadata and an L2 distance (lower is better). -/
structure RetrievalResult where
  id : String
  content : String
  metadata : SlideMeta
  distance : ℚ
  deriving DecidableEq, Repr

/-- The dictionary returned by `QueryEngine.query` and `QueryEngine.chat`. -/
structure QueryResult where
  answer : String
  relevant_slides : List RetrievalResult
  confidence : ℚ
  deriving DecidableEq, Repr

/-- An error raised by the hosted generation API. -/
structure GenError where
  msg : String
  deriving DecidableEq, Repr

/-- One message of a chat transcript (role is "user" or "assistant"). -/
structure ChatMsg where
  role : String
  content : String
  deriving DecidableEq, Repr

/-- The argument record of `client.messages.create`. -/
structure GenRequest where
  model : String
  max_tokens : Nat
  system : Option String
  messages : List ChatMsg
  deriving DecidableEq, Repr

/-- The generation client: a deterministic oracle from the request to
either the reply text or a raised error. -/
def GenOracle : Type := GenRequest → Except GenError String

/-- The model identifier `self.model` set in `QueryEngine.__init__`. -/
def modelName : String := "claude-sonnet-4-20250514"

/-- Python slicing `s[:n]` on strings: the first `n` characters. -/
def strTake (s : String) (n : Nat) : String := String.mk (s.data.take n)

/-! ### Confidence scoring (`QueryEngine._calculate_confidence`) -/

/-- Python `round` to an integer: round half to even (banker's rounding),
on an exact rational. -/
def roundHalfEven (q : ℚ) : ℤ :=
  if q - ⌊q⌋ < 1/2 then ⌊q⌋
  else if 1/2 < q - ⌊q⌋ then ⌊q⌋ + 1
  else if 2 ∣ ⌊q⌋ then ⌊q⌋ else ⌊q⌋ + 1

/-- Python `round(x, 2)`: round to two decimal places. -/
def round2 (q : ℚ) : ℚ := (roundHalfEven (q * 100) : ℚ) / 100

/-- Average of the `distance` values of a result list (meaningful only
for non-empty input, as in the source). -/
def avg_distance (results : List RetrievalResult) : ℚ :=
  let distances := results.map (fun r => r.distance)
  distances.sum / (distances.length : ℚ)

/-- Shallow embedding of `QueryEngine._calculate_confidence`. -/
def calculate_confidence (results : List RetrievalResult) : ℚ :=
  if results = [] then 0
  else round2 (max 0 (min 1 (1 - avg_distance results / 2)))

/-- Confidence as the spec words it (section 4.3): clamp `1 - avg/2` to
[0,1] then round to 2 decimals, as a function of the distance list. -/
def specConfidence (distances : List ℚ) : ℚ :=
  round2 (max 0 (min 1 (1 - (distances.sum / (distances.length : ℚ)) / 2)))

theorem le_roundHalfEven (q : ℚ) : ⌊q⌋ ≤ roundHalfEven q := by
  unfold roundHalfEven
  split_ifs <;> omega

theorem roundHalfEven_le (q : ℚ) : roundHalfEven q ≤ ⌊q⌋ + 1 := by
  unfold roundHalfEven
  split_ifs <;> omega

theorem roundHalfEven_mono {x y : ℚ} (h : x ≤ y) :
    roundHalfEven x ≤ roundHalfEven y := by
  have hf : ⌊x⌋ ≤ ⌊y⌋ := Int.floor_le_floor h
  rcases eq_or_lt_of_le hf with heq | hlt
  · unfold roundHalfEven
    rw [← heq]
    split_ifs <;> first | omega | (exfalso; linarith)
  · calc roundHalfEven x ≤ ⌊x⌋ + 1 := roundHalfEven_le x
    _ ≤ ⌊y⌋ := by omega
    _ ≤ roundHalfEven y := le_roundHalfEven y

theorem round2_mono {x y : ℚ} (h : x ≤ y) : round2 x ≤ round2 y := by
  unfold round2
  have := roundHalfEven_mono (show x * 100 ≤ y * 100 by linarith)
  have hc : ((roundHalfEven (x * 100) : ℚ)) ≤ ((roundHalfEven (y * 100) : ℚ)) := by
    exact_mod_cast this
  linarith

theorem roundHalfEven_intCast (n : ℤ) : roundHalfEven (n : ℚ) = n := by
  unfold roundHalfEven
  rw [Int.floor_intCast]
  norm_num

theorem round2_zero : round2 0 = 0 := by
  unfold round2
  norm_num
  have : roundHalfEven ((0 : ℤ) : ℚ) = 0 := roundHalfEven_intCast 0
  simpa using this

theorem round2_one : round2 1 = 1 := by
  unfold round2
  norm_num
  have : roundHalfEven ((100 : ℤ) : ℚ) = 100 := roundHalfEven_intCast 100
  rw [show ((100 : ℤ) : ℚ) = (100 : ℚ) by norm_num] at this
  rw [this]
  norm_num

theorem round2_bounds {q : ℚ} (h0 : 0 ≤ q) (h1 : q ≤ 1) :
    0 ≤ round2 q ∧ round2 q ≤ 1 := by
  constructor
  · have := round2_mono h0
    rwa [round2_zero] at this
  · have := round2_mono h1
    rwa [round2_one] at this

/-! ### Single-turn query (`QueryEngine.query`) -/

/-- The fixed answer returned when retrieval finds nothing. -/
def noInfoAnswer : String :=
  "I couldn" ++ apos ++ "t find any relevant information in the uploaded slides. Please make sure you" ++ apos ++ "ve uploaded a presentation."

/-- One block of the LLM context built in `_generate_response`. -/
def contextPart (slide : RetrievalResult) : String :=
  "[Slide " ++ metaSlideNumStr slide.metadata ++ " from " ++ metaFilenameStr slide.metadata ++ "]\n" ++ slide.content

/-- The full context of `_generate_response`: parts joined by the visible
separator. -/
def buildContext (slides : List RetrievalResult) : String :=
  String.intercalate "\n\n---\n\n" (slides.map contextPart)

/-- The prompt composed by `_generate_response`. -/
def generationPrompt (question : String) (slides : List RetrievalResult) : String :=
  "You are an intelligent assistant helping users find information from presentation slides.\n\nBased on the following slide content, answer the user" ++ apos ++ "s question.\n- Be concise but thorough\n- Reference specific slides when relevant (e.g., \"As shown in Slide 3...\")\n- If the information isn" ++ apos ++ "t in the slides, say so\n- If you can extract data points, present them clearly\n- If the user asks about charts/visualizations, describe what the slides indicate\n\nSLIDE CONTENT:\n" ++ buildContext slides ++ "\n\nUSER QUESTION: " ++ question ++ "\n\nANSWER:"

/-- The request `_generate_response` sends to `client.messages.create`. -/
def mkQueryGenRequest (question : String) (slides : List RetrievalResult) : GenRequest :=
  { model := modelName
    max_tokens := 1500
    system := none
    messages := [{ role := "user", content := generationPrompt question slides }] }

/-- Shallow embedding of `QueryEngine._generate_response`: a single
generation call whose result (or raised error) is returned as is. -/
def generate_response (gen : GenOracle) (question : String)
    (relevant_slides : List RetrievalResult) : Except GenError String :=
  gen (mkQueryGenRequest question relevant_slides)

/-- The content preview of `_generate_simple_response`: content over 300
characters is cut to its first 300 characters with an ellipsis marker. -/
def contentPreview (content : String) : String :=
  if 300 < content.length then strTake content 300 ++ "..." else content

/-- The two lines `_generate_simple_response` appends per slide. -/
def slideSummary (slide : RetrievalResult) : List String :=
  ["\n**Slide " ++ metaSlideNumStr slide.metadata ++ ": " ++ metaTitleStr slide.metadata ++ "**",
   contentPreview slide.content]

/-- Shallow embedding of `QueryEngine._generate_simple_response`, the
deterministic fallback answer used when no client is configured. -/
def generate_simple_response (question : String)
    (relevant_slides : List RetrievalResult) : String :=
  String.intercalate "\n"
    (("Found " ++ toString relevant_slides.length ++ " relevant slide(s) for your query:\n")
      :: (relevant_slides.map slideSummary).flatten)

/-- Shallow embedding of `QueryEngine.query`.  `client` is the optional
generation oracle (`self.client`), `search` embeds
`self.embeddings.search` as a function of the query text and `n_results`.
The second component of the output counts generation calls; a raised
generation error surfaces as `Except.error`. -/
def query (client : Option GenOracle)
    (search : String → Nat → List RetrievalResult)
    (question : String) (n_results : Nat) :
    Except GenError QueryResult × Nat :=
  let relevant_slides := search question n_results
  match relevant_slides with
  | [] =>
    (Except.ok { answer := noInfoAnswer, relevant_slides := [], confidence := 0 }, 0)
  | _ =>
    match client with
    | some gen =>
      match generate_response gen question relevant_slides with
      | Except.ok answer =>
        (Except.ok { answer := answer
                     relevant_slides := relevant_slides
                     confidence := calculate_confidence relevant_slides }, 1)
      | Except.error e => (Except.error e, 1)
    | none =>
      (Except.ok { answer := generate_simple_response question relevant_slides
                   relevant_slides := relevant_slides
                   confidence := calculate_confidence relevant_slides }, 0)

/-! ### Multi-turn chat (`QueryEngine.chat`) -/

/-- One context line of `chat`: slide number tag plus content truncated to
500 characters. -/
def chatContextPart (slide : RetrievalResult) : String :=
  "[Slide " ++ metaSlideNumStr slide.metadata ++ "] " ++ strTake slide.content 500

/-- The system instruction composed by `chat`. -/
def chatSystemPrompt (slides : List RetrievalResult) : String :=
  "You are an intelligent assistant helping users explore and understand presentation slides.\n\nAvailable slide content:\n" ++ String.intercalate "\n" (slides.map chatContextPart) ++ "\n\nGuidelines:\n- Answer questions based on the slide content above\n- Be conversational and helpful\n- Reference specific slides when relevant\n- If asked about data/charts, describe what" ++ apos ++ "s shown\n- If information isn" ++ apos ++ "t available, say so politely\n- Keep responses concise but informative"

/-- Python `chat_history[-10:]`: the last ten messages. -/
def lastTen (l : List ChatMsg) : List ChatMsg := l.drop (l.length - 10)

/-- The request `chat` sends to `client.messages.create`: system
instruction from the retrieved slides, the trailing history window, and
the new user message. -/
def mkChatGenRequest (message : String) (slides : List RetrievalResult)
    (chat_history : List ChatMsg) : GenRequest :=
  { model := modelName
    max_tokens := 1500
    system := some (chatSystemPrompt slides)
    messages := lastTen chat_history ++ [{ role := "user", content := message }] }

/-- Shallow embedding of `QueryEngine.chat`: run the single-turn query on
the message alone (with `n_results = 5`), return it unchanged without a
client, otherwise make one more generation call and overwrite only the
answer field. -/
def chat (client : Option GenOracle)
    (search : String → Nat → List RetrievalResult)
    (message : String) (chat_history : List ChatMsg) :
    Except GenError QueryResult × Nat :=
  match query client search message 5 with
  | (Except.error e, n) => (Except.error e, n)
  | (Except.ok result, n) =>
    match client with
    | none => (Except.ok result, n)
    | some gen =>
      match gen (mkChatGenRequest message result.relevant_slides chat_history) with
      | Except.ok text => (Except.ok { result with answer := text }, n + 1)
      | Except.error e => (Except.error e, n + 1)

/-! ### Example-question suggestion (`QueryEngine.generate_example_questions`) -/

/-- The broad sample query hard-coded in `generate_example_questions`. -/
def sampleQuery : String := "main topics key points data"

/-- The prompt composed by `generate_example_questions`. -/
def exampleQuestionsPrompt (num_questions : Nat) (lang : String)
    (sample_results : List RetrievalResult) : String :=
  let context := String.intercalate "\n---\n"
    (sample_results.map (fun slide => strTake slide.content 300))
  let lang_instruction :=
    if lang = "ar" then "in Arabic (العربية)" else "in English"
  "Based on this presentation content, generate " ++ toString num_questions ++ " natural questions that a user might ask " ++ lang_instruction ++ ".\n\nPRESENTATION CONTENT:\n" ++ context ++ "\n\nGenerate questions that:\n- Are specific to the actual content shown\n- Cover different aspects (data, summaries, comparisons, specific slides)\n- Sound natural and conversational\n- Would help someone explore the presentation\n\nReturn ONLY the questions, one per line, no numbering or bullets."

/-- The request `generate_example_questions` sends. -/
def mkExampleQuestionsRequest (num_questions : Nat) (lang : String)
    (sample_results : List RetrievalResult) : GenRequest :=
  { model := modelName
    max_tokens := 500
    system := none
    messages := [{ role := "user",
                   content := exampleQuestionsPrompt num_questions lang sample_results }] }

/-- Shallow embedding of `QueryEngine.generate_example_questions`.  Its
`try/except` around the generation call maps the error case to `[]`. -/
def generate_example_questions (client : Option GenOracle)
    (search : String → Nat → List RetrievalResult)
    (num_questions : Nat) (lang : String) : List String :=
  match client with
  | none => []
  | some gen =>
    let sample_results := search sampleQuery 5
    match sample_results with
    | [] => []
    | _ =>
      match gen (mkExampleQuestionsRequest num_questions lang sample_results) with
      | Except.error _ => []
      | Except.ok text =>
        let questions := (text.trim.splitOn "\n").map String.trim
        (questions.filter (fun q => q ≠ "")).take num_questions

/-! ### Table extraction data model (`pptx_processor.TableData`) -/

/-- An extracted table: data rows and an optional header row. -/
structure TableData where
  rows : List (List String)
  headers : List String
  deriving DecidableEq, Repr

/-- The header list `to_markdown` renders: the `headers` field, or, when
it is empty, the first data row. -/
def TableData.effHeaders (t : TableData) : List String :=
  match t.rows with
  | [] => []
  | r0 :: _ => if t.headers = [] then r0 else t.headers

/-- The rows `to_markdown` renders as data: all rows when `headers` is
set, otherwise every row after the first. -/
def TableData.effDataRows (t : TableData) : List (List String) :=
  match t.rows with
  | [] => []
  | _ :: rest => if t.headers = [] then rest else t.rows

/-- Padding step of `to_markdown`: extend the row with empty cells up to
the header count, then keep only the first `headers.length` cells. -/
def padRow (headers : List String) (row : List String) : List String :=
  (row ++ List.replicate (headers.length - row.length) "").take headers.length

/-- One rendered data row of the markdown table. -/
def renderDataRow (headers : List String) (row : List String) : String :=
  "| " ++ String.intercalate " | " (padRow headers row) ++ " |"

/-- The rendered header line. -/
def headerLine (headers : List String) : String :=
  "| " ++ String.intercalate " | " headers ++ " |"

/-- The rendered separator line. -/
def separatorLine (headers : List String) : String :=
  "| " ++ String.intercalate " | " (List.replicate headers.length "---") ++ " |"

/-- Shallow embedding of `TableData.to_markdown`. -/
def TableData.to_markdown (t : TableData) : String :=
  match t.rows with
  | [] => ""
  | _ :: _ =>
    String.intercalate "\n"
      (headerLine t.effHeaders :: separatorLine t.effHeaders ::
        t.effDataRows.map (renderDataRow t.effHeaders))

/-! ### Ingestion flow (`components/upload.py` and `services/embeddings.py`) -/

/-- The scalar metadata record attached to an index entry at ingestion
(`slides_to_embed` in `render_upload_section`). -/
structure IndexMeta where
  filename : String
  slide_number : Int
  title : String
  has_chart : Bool
  has_image : Bool
  has_table : Bool
  deriving DecidableEq, Repr

/-- One (id, content, metadata) triple stored in the vector collection. -/
structure IndexEntry where
  id : String
  content : String
  metadata : IndexMeta
  deriving DecidableEq, Repr

/-- ChromaDB upsert of one entry: any prior entry with the same id is
replaced. -/
def upsertOne (store : List IndexEntry) (e : IndexEntry) : List IndexEntry :=
  store.filter (fun x => x.id != e.id) ++ [e]

/-- Shallow embedding of `EmbeddingsService.add_slides_batch`: upsert the
given entries into the collection. -/
def add_slides_batch (store : List IndexEntry) (slides : List IndexEntry) :
    List IndexEntry :=
  slides.foldl upsertOne store

/-- Shallow embedding of `EmbeddingsService.clear_collection`: delete and
recreate the collection, leaving it empty. -/
def clear_collection (_store : List IndexEntry) : List IndexEntry := []

/-- Extracted content of one slide (`pptx_processor.SlideContent`) as the
upload component consumes it. -/
structure SlideContent where
  slide_number : Int
  title : String
  text_content : List String
  tables : List TableData
  has_chart : Bool
  has_image : Bool
  raw_notes : String
  deriving DecidableEq, Repr

/-- A fully processed document (`pptx_processor.ProcessedPresentation`). -/
structure ProcessedPresentation where
  filename : String
  total_slides : Nat
  slides : List SlideContent
  deriving DecidableEq, Repr

/-- Shallow embedding of `embeddings.create_slide_embedding_content` on a
slide's dictionary projection. -/
def create_slide_embedding_content (slide : SlideContent) : String :=
  let parts : List String :=
    (if slide.title ≠ "" then ["Title: " ++ slide.title] else []) ++
    (if slide.text_content ≠ [] then [String.intercalate " " slide.text_content] else []) ++
    (slide.tables.map (fun t => t.rows.map (fun row => String.intercalate " | " row))).flatten ++
    (if slide.raw_notes ≠ "" then ["Notes: " ++ slide.raw_notes] else []) ++
    (if slide.has_chart then ["[Contains chart/visualization]"] else []) ++
    (if slide.has_image then ["[Contains image]"] else [])
  String.intercalate " " parts

/-- The translated word used for an untitled slide
(`get_text('slide', lang)`). -/
def slideLabel (lang : String) : String :=
  if lang = "ar" then "شريحة" else "Slide"

/-- The index entry the upload component builds for one slide. -/
def slideEntry (lang : String) (filename : String) (slide : SlideContent) :
    IndexEntry :=
  { id := filename ++ "_slide_" ++ toString slide.slide_number
    content := create_slide_embedding_content slide
    metadata :=
      { filename := filename
        slide_number := slide.slide_number
        title := if slide.title ≠ "" then slide.title
                 else slideLabel lang ++ " " ++ toString slide.slide_number
        has_chart := slide.has_chart
        has_image := slide.has_image
        has_table := !slide.tables.isEmpty } }

/-- Shallow embedding of the ingestion flow of `render_upload_section`:
clear the collection, then upsert one entry per slide of the new
document. -/
def ingest_document (lang : String) (store : List IndexEntry)
    (doc : ProcessedPresentation) : List IndexEntry :=
  add_slides_batch (clear_collection store)
    (doc.slides.map (slideEntry lang doc.filename))

/-! ### Concrete example data used by witnesses and counterexamples -/

/-- A sample retrieval hit at distance 1. -/
def slideEx : RetrievalResult :=
  { id := "f.pptx_slide_1"
    content := "Revenue grew 20%"
    metadata :=
      { slide_number := some 1
        filename := some "f.pptx"
        title := some "Revenue"
        has_chart := none
        has_image := none
        has_table := none }
    distance := 1 }

/-- A generation oracle that always replies with the same text. -/
def genReplyOracle : GenOracle := fun _ => Except.ok "reply"

/-- A generation oracle that always raises. -/
def genFailOracle : GenOracle := fun _ => Except.error { msg := "boom" }

/-- A search function that always returns the single sample hit. -/
def searchOne : String → Nat → List RetrievalResult := fun _ _ => [slideEx]

/-- A search function over an empty store: no hits for any query. -/
def searchNone : String → Nat → List RetrievalResult := fun _ _ => []

theorem calculate_confidence_slideEx : calculate_confidence [slideEx] = 1/2 := by
  have h1 : avg_distance [slideEx] = 1 := by
    simp [avg_distance, slideEx]
  rw [calculate_confidence, if_neg (by simp), h1]
  norm_num [round2, roundHalfEven]

/-! ### Claim theorems -/

/-- Claim C1: when retrieval returns an empty result set, `query` returns
the fixed no-relevant-information answer, an empty slide list and
confidence 0.0, and makes no generation call (the call counter is 0). -/
theorem query_empty_retrieval_skips_generation (client : Option GenOracle)
    (search : String → Nat → List RetrievalResult)
    (question : String) (n_results : Nat)
    (h : search question n_results = []) :
    query client search question n_results =
      (Except.ok { answer := noInfoAnswer, relevant_slides := [], confidence := 0 }, 0) := by
  simp [query, h]

theorem query_empty_retrieval_skips_generation_witness :
    query (some genReplyOracle) searchNone "What happened to revenue?" 5 =
      (Except.ok { answer := noInfoAnswer, relevant_slides := [], confidence := 0 }, 0) :=
  query_empty_retrieval_skips_generation (some genReplyOracle) searchNone
    "What happened to revenue?" 5 rfl

theorem clamp01_le_one (x : ℚ) : max 0 (min 1 x) ≤ 1 :=
  max_le zero_le_one (min_le_left 1 x)

theorem clamp01_nonneg (x : ℚ) : 0 ≤ max 0 (min 1 x) :=
  le_max_left 0 (min 1 x)

theorem calculate_confidence_eq (results : List RetrievalResult) (h : results ≠ []) :
    calculate_confidence results = round2 (max 0 (min 1 (1 - avg_distance results / 2))) := by
  rw [calculate_confidence, if_neg h]

/-- Claim C2: for every non-empty result list, the confidence score is
exactly the spec formula `round2 (clamp (1 - avg/2) 0 1)` over the
distance list, lies in [0,1], and is non-increasing in the average
distance. -/
theorem calculate_confidence_matches_spec (results : List RetrievalResult)
    (h : results ≠ []) :
    calculate_confidence results = specConfidence (results.map (fun r => r.distance))
    ∧ 0 ≤ calculate_confidence results
    ∧ calculate_confidence results ≤ 1
    ∧ ∀ results2 : List RetrievalResult, results2 ≠ [] →
        avg_distance results ≤ avg_distance results2 →
        calculate_confidence results2 ≤ calculate_confidence results := by
  refine ⟨?_, ?_, ?_, ?_⟩
  · rw [calculate_confidence_eq results h]
    rfl
  · rw [calculate_confidence_eq results h]
    exact (round2_bounds (clamp01_nonneg _) (clamp01_le_one _)).1
  · rw [calculate_confidence_eq results h]
    exact (round2_bounds (clamp01_nonneg _) (clamp01_le_one _)).2
  · intro results2 h2 havg
    rw [calculate_confidence_eq results h, calculate_confidence_eq results2 h2]
    apply round2_mono
    exact max_le_max le_rfl (min_le_min le_rfl (by linarith))

theorem calculate_confidence_matches_spec_witness :
    calculate_confidence [slideEx] = specConfidence [(1 : ℚ)]
    ∧ calculate_confidence [{ slideEx with distance := 2 }] ≤ calculate_confidence [slideEx] :=
  ⟨(calculate_confidence_matches_spec [slideEx] (by simp)).1,
   (calculate_confidence_matches_spec [slideEx] (by simp)).2.2.2
     [{ slideEx with distance := 2 }] (by simp)
     (by norm_num [avg_distance, slideEx])⟩

/-- Claim C3 counterexample: with a configured client whose generation
call raises and a non-empty retrieval, `query` surfaces the raised error
to its caller instead of recovering with the templated fallback answer. -/
theorem generation_error_not_recovered_cex :
    query (some genFailOracle) searchOne "q" 5 = (Except.error { msg := "boom" }, 1)
    ∧ (query (some genFailOracle) searchOne "q" 5).1 ≠
        Except.ok { answer := generate_simple_response "q" [slideEx]
                    relevant_slides := [slideEx]
                    confidence := calculate_confidence [slideEx] } := by
  constructor
  · simp [query, searchOne, generate_response, genFailOracle]
  · simp [query, searchOne, generate_response, genFailOracle]

/-- Claim C3 as amended: an error raised during a generation call inside
`query` or `chat` propagates to the caller as a raised error; the
templated fallback answer is produced only when no generation client is
configured (only the example-question path catches generation errors). -/
theorem generation_error_propagates (e : GenError)
    (search : String → Nat → List RetrievalResult) (question : String)
    (n_results : Nat) (hist : List ChatMsg)
    (h : search question n_results ≠ []) (h5 : search question 5 ≠ []) :
    (query (some (fun _ => Except.error e)) search question n_results).1 = Except.error e
    ∧ (chat (some (fun _ => Except.error e)) search question hist).1 = Except.error e
    ∧ (query none search question n_results).1 =
        Except.ok { answer := generate_simple_response question (search question n_results)
                    relevant_slides := search question n_results
                    confidence := calculate_confidence (search question n_results) } := by
  obtain ⟨x, xs, hcons⟩ := List.exists_cons_of_ne_nil h
  obtain ⟨y, ys, hcons5⟩ := List.exists_cons_of_ne_nil h5
  refine ⟨?_, ?_, ?_⟩
  · simp [query, hcons, generate_response]
  · simp [chat, query, hcons5, generate_response]
  · simp [query, hcons]

theorem generation_error_propagates_witness :
    (query (some (fun _ => Except.error { msg := "boom" })) searchOne "q" 5).1 =
        Except.error { msg := "boom" }
    ∧ (chat (some (fun _ => Except.error { msg := "boom" })) searchOne "q" []).1 =
        Except.error { msg := "boom" }
    ∧ (query none searchOne "q" 5).1 =
        Except.ok { answer := generate_simple_response "q" (searchOne "q" 5)
                    relevant_slides := searchOne "q" 5
                    confidence := calculate_confidence (searchOne "q" 5) } :=
  generation_error_propagates { msg := "boom" } searchOne "q" 5 []
    (by simp [searchOne]) (by simp [searchOne])

/-- Claim C4 counterexample: when the generation call fails (client
configured) and retrieval is non-empty, `query` does not return the
templated answer — the error is raised to the caller. -/
theorem query_gen_failure_not_templated_cex :
    (query (some (fun _ => Except.error { msg := "api down" })) searchOne
        "what happened" 5).1 = Except.error { msg := "api down" } := by
  simp [query, searchOne, generate_response]

/-- Claim C4 as amended: whenever no generation credential is configured
and retrieval is non-empty, `query` returns the deterministic templated
answer — a header plus, per retrieved record, its number and title and a
content preview whose content portion is at most 300 characters — with
zero generation calls (so no model-authored prose); when a configured
generation call fails, `query` instead propagates the error. -/
theorem query_fallback_templated_answer
    (search : String → Nat → List RetrievalResult) (question : String)
    (n_results : Nat) (h : search question n_results ≠ []) :
    query none search question n_results =
      (Except.ok { answer := generate_simple_response question (search question n_results)
                   relevant_slides := search question n_results
                   confidence := calculate_confidence (search question n_results) }, 0)
    ∧ generate_simple_response question (search question n_results) =
        String.intercalate "\n"
          (("Found " ++ toString (search question n_results).length ++
              " relevant slide(s) for your query:\n")
            :: ((search question n_results).map slideSummary).flatten)
    ∧ ∀ slide ∈ search question n_results,
        slideSummary slide =
          ["\n**Slide " ++ metaSlideNumStr slide.metadata ++ ": " ++
              metaTitleStr slide.metadata ++ "**",
            contentPreview slide.content]
        ∧ (contentPreview slide.content = slide.content
            ∨ contentPreview slide.content = strTake slide.content 300 ++ "...")
        ∧ (strTake slide.content 300).length ≤ 300 := by
  obtain ⟨x, xs, hcons⟩ := List.exists_cons_of_ne_nil h
  refine ⟨by simp [query, hcons], rfl, ?_⟩
  intro slide _
  refine ⟨rfl, ?_, ?_⟩
  · rw [contentPreview]
    split
    · exact Or.inr rfl
    · exact Or.inl rfl
  · have : (strTake slide.content 300).length = (slide.content.data.take 300).length := rfl
    rw [this, List.length_take]
    exact min_le_left _ _

theorem query_fallback_templated_answer_witness :
    query none searchOne "q" 5 =
      (Except.ok { answer := generate_simple_response "q" (searchOne "q" 5)
                   relevant_slides := searchOne "q" 5
                   confidence := calculate_confidence (searchOne "q" 5) }, 0)
    ∧ (contentPreview slideEx.content = slideEx.content
        ∨ contentPreview slideEx.content = strTake slideEx.content 300 ++ "...")
    ∧ (strTake slideEx.content 300).length ≤ 300 :=
  ⟨(query_fallback_templated_answer searchOne "q" 5 (by simp [searchOne])).1,
   ((query_fallback_templated_answer searchOne "q" 5 (by simp [searchOne])).2.2
      slideEx (by simp [searchOne])).2.1,
   ((query_fallback_templated_answer searchOne "q" 5 (by simp [searchOne])).2.2
      slideEx (by simp [searchOne])).2.2⟩

/-- Claim C5: in fallback mode (no generation client), `chat` ignores the
history argument entirely — identical message, different histories,
identical results. -/
theorem chat_fallback_ignores_history
    (search : String → Nat → List RetrievalResult) (message : String)
    (h1 h2 : List ChatMsg) :
    chat none search message h1 = chat none search message h2 := by
  cases hq : query none search message 5 with
  | mk r n =>
    cases r <;> simp [chat, hq]

/-- Claim C6: when generation is available and succeeds, `chat` replaces
only the answer field of the single-turn query result; the retrieved
slide list and the confidence score are exactly those of `query` on the
current message. -/
theorem chat_replaces_only_answer (gen : GenOracle)
    (search : String → Nat → List RetrievalResult) (message : String)
    (hist : List ChatMsg) (r : QueryResult) (n : Nat) (reply : String)
    (hq : query (some gen) search message 5 = (Except.ok r, n))
    (hg : gen (mkChatGenRequest message r.relevant_slides hist) = Except.ok reply) :
    chat (some gen) search message hist =
      (Except.ok { answer := reply
                   relevant_slides := r.relevant_slides
                   confidence := r.confidence }, n + 1) := by
  simp only [chat, hq, hg]

theorem chat_replaces_only_answer_witness :
    chat (some genReplyOracle) searchOne "m" [] =
      (Except.ok { answer := "reply", relevant_slides := [slideEx], confidence := 1/2 }, 2) :=
  chat_replaces_only_answer genReplyOracle searchOne "m" []
    { answer := "reply", relevant_slides := [slideEx], confidence := 1/2 } 1 "reply"
    (by simp [query, searchOne, generate_response, genReplyOracle, calculate_confidence_slideEx])
    rfl

/-- Claim C7 counterexample: with headers A, B, C and the single short row
x, the row does not render as the string claimed by the spec ("x | | ");
the padded cells are joined with a space on each side of the bar, giving
the row line "| x |  |  |". -/
theorem table_row_render_cex :
    TableData.to_markdown { rows := [["x"]], headers := ["A", "B", "C"] } =
      "| A | B | C |\n| --- | --- | --- |\n| x |  |  |"
    ∧ renderDataRow ["A", "B", "C"] ["x"] ≠ "x | | "
    ∧ String.intercalate " | " (padRow ["A", "B", "C"] ["x"]) ≠ "x | | " :=
  ⟨rfl, by decide, by decide⟩

/-- Claim C7 as amended: table rendering pads every row shorter than the
header list with empty cells to exactly the header length (and never
throws, being total); headers A, B, C with row x render the data row line
as "| x |  |  |". -/
theorem to_markdown_pads_rows (t : TableData) (h : t.rows ≠ []) :
    t.to_markdown = String.intercalate "\n"
        (headerLine t.effHeaders :: separatorLine t.effHeaders ::
          t.effDataRows.map (renderDataRow t.effHeaders))
    ∧ (∀ row ∈ t.effDataRows,
        (padRow t.effHeaders row).length = t.effHeaders.length
        ∧ (row.length ≤ t.effHeaders.length →
            padRow t.effHeaders row =
              row ++ List.replicate (t.effHeaders.length - row.length) ""))
    ∧ TableData.to_markdown { rows := [["x"]], headers := ["A", "B", "C"] } =
        "| A | B | C |\n| --- | --- | --- |\n| x |  |  |" := by
  refine ⟨?_, ?_, rfl⟩
  · obtain ⟨r0, rest, hcons⟩ := List.exists_cons_of_ne_nil h
    simp only [TableData.to_markdown, hcons]
  · intro row _
    constructor
    · simp only [padRow, List.length_take, List.length_append, List.length_replicate]
      omega
    · intro hle
      have hlen : (row ++ List.replicate (t.effHeaders.length - row.length) "").length ≤
          t.effHeaders.length := by
        simp only [List.length_append, List.length_replicate]
        omega
      rw [padRow, List.take_of_length_le hlen]

theorem to_markdown_pads_rows_witness :
    (padRow ["A", "B", "C"] ["x"]).length = 3
    ∧ padRow ["A", "B", "C"] ["x"] = ["x"] ++ List.replicate 2 "" :=
  ⟨((to_markdown_pads_rows { rows := [["x"]], headers := ["A", "B", "C"] }
      (by decide)).2.1 ["x"] (by decide)).1,
   ((to_markdown_pads_rows { rows := [["x"]], headers := ["A", "B", "C"] }
      (by decide)).2.1 ["x"] (by decide)).2 (by decide)⟩

theorem mem_of_mem_add_slides_batch {slides : List IndexEntry} :
    ∀ {store : List IndexEntry} {x : IndexEntry},
      x ∈ add_slides_batch store slides → x ∈ store ∨ x ∈ slides := by
  induction slides with
  | nil =>
    intro store x hx
    exact Or.inl hx
  | cons s rest ih =>
    intro store x hx
    have hx2 : x ∈ add_slides_batch (upsertOne store s) rest := hx
    rcases ih hx2 with hmem | hmem
    · rcases List.mem_append.mp hmem with hf | hs
      · exact Or.inl (List.mem_of_mem_filter hf)
      · have hxs : x = s := by simpa using hs
        exact Or.inr (by simp [hxs])
    · exact Or.inr (List.mem_cons_of_mem _ hmem)

/-- Claim C8: ingesting a new document clears the store before upserting,
so after ingesting document B following document A (distinct filenames),
every stored entry carries B's filename and none references A's. -/
theorem ingest_clears_prior_document (lang : String) (store : List IndexEntry)
    (docA docB : ProcessedPresentation) (hfn : docA.filename ≠ docB.filename) :
    ∀ e ∈ ingest_document lang (ingest_document lang store docA) docB,
      e.metadata.filename = docB.filename ∧ e.metadata.filename ≠ docA.filename := by
  intro e he
  have hmem : e ∈ docB.slides.map (slideEntry lang docB.filename) := by
    rcases mem_of_mem_add_slides_batch he with h0 | h1
    · simp [clear_collection] at h0
    · exact h1
  obtain ⟨s, _, rfl⟩ := List.mem_map.mp hmem
  exact ⟨rfl, fun hcontra => hfn hcontra.symm⟩

/-- Slide content of the first sample document. -/
def slideA : SlideContent :=
  { slide_number := 1, title := "Alpha", text_content := ["Revenue fell"],
    tables := [], has_chart := false, has_image := false, raw_notes := "" }

/-- Slide content of the second sample document. -/
def slideB : SlideContent :=
  { slide_number := 1, title := "Beta", text_content := ["Revenue grew 20%"],
    tables := [], has_chart := false, has_image := false, raw_notes := "" }

/-- First sample document. -/
def docA : ProcessedPresentation := { filename := "a.pptx", total_slides := 1, slides := [slideA] }

/-- Second sample document. -/
def docB : ProcessedPresentation := { filename := "b.pptx", total_slides := 1, slides := [slideB] }

theorem ingest_clears_prior_document_witness :
    (slideEntry "en" "b.pptx" slideB).metadata.filename = "b.pptx"
    ∧ (slideEntry "en" "b.pptx" slideB).metadata.filename ≠ "a.pptx" :=
  ingest_clears_prior_document "en" [] docA docB (by decide)
    (slideEntry "en" "b.pptx" slideB) (by decide)

/-- Claim C9: `generate_example_questions` returns the empty list when no
client is configured or the sample retrieval is empty, and otherwise at
most the requested number of questions. -/
theorem example_questions_guarded (client : Option GenOracle)
    (search : String → Nat → List RetrievalResult)
    (num_questions : Nat) (lang : String) :
    (client = none → generate_example_questions client search num_questions lang = [])
    ∧ (search sampleQuery 5 = [] →
        generate_example_questions client search num_questions lang = [])
    ∧ (generate_example_questions client search num_questions lang).length ≤ num_questions := by
  refine ⟨?_, ?_, ?_⟩
  · intro hc
    subst hc
    rfl
  · intro hs
    cases client with
    | none => rfl
    | some gen => simp [generate_example_questions, hs]
  · cases client with
    | none => simp [generate_example_questions]
    | some gen =>
      cases hs : search sampleQuery 5 with
      | nil => simp [generate_example_questions, hs]
      | cons y ys =>
        simp only [generate_example_questions, hs]
        cases gen (mkExampleQuestionsRequest num_questions lang (y :: ys)) with
        | error e => simp
        | ok text =>
          simp only []
          calc (((((text.trim.splitOn "\n").map String.trim).filter
                  (fun q => q ≠ "")).take num_questions)).length
              ≤ num_questions := by
                rw [List.length_take]
                exact min_le_left _ _

theorem example_questions_guarded_witness :
    generate_example_questions none searchNone 6 "en" = []
    ∧ generate_example_questions (some genReplyOracle) searchNone 6 "en" = []
    ∧ (generate_example_questions (some genReplyOracle) searchNone 6 "en").length ≤ 6 :=
  ⟨(example_questions_guarded none searchNone 6 "en").1 rfl,
   (example_questions_guarded (some genReplyOracle) searchNone 6 "en").2.1 rfl,
   (example_questions_guarded (some genReplyOracle) searchNone 6 "en").2.2⟩

/-- Claim C10: with a configured client and empty retrieval for the
message, `chat` still makes exactly one generation call — with the
system instruction built from an empty slide list — and returns the
model's reply while keeping the empty slide list and confidence 0 of the
single-turn result. -/
theorem chat_generates_on_empty_retrieval (gen : GenOracle)
    (search : String → Nat → List RetrievalResult) (message : String)
    (hist : List ChatMsg) (reply : String)
    (hs : search message 5 = [])
    (hg : gen (mkChatGenRequest message [] hist) = Except.ok reply) :
    chat (some gen) search message hist =
      (Except.ok { answer := reply, relevant_slides := [], confidence := 0 }, 1) := by
  simp [chat, query, hs, hg]

theorem chat_generates_on_empty_retrieval_witness :
    chat (some genReplyOracle) searchNone "m" [] =
      (Except.ok { answer := "reply", relevant_slides := [], confidence := 0 }, 1) :=
  chat_generates_on_empty_retrieval genReplyOracle searchNone "m" [] "reply" rfl rfl

end DataDashboard
